import Mathlib

/-!
Shallow embedding of the two header-only utilities of the repository
`cpp_c_interop`:

* `sentinel_result.hpp` — `cinter::sentinel_result<T, sentinel, SuccessComp>`,
  a wrapper of one value of type `T` whose success query compares the held
  value against a configured sentinel with a configured predicate.
* `safe_string.hpp` — `cinter::basic_safe_string<Char>`, a non-owning view of
  a possibly-null pointer to a null-terminated character buffer.

Modelling conventions.  A raw character pointer is `Option (CBuffer C)`:
`none` is the null pointer, and a non-null pointer carries the address it
points at (`addr`, never consulted by any operation, kept so that pointer
identity and content are distinguishable) together with the cells of memory
it gives access to (`data`).  C++ template parameters become explicit Lean
parameters: the character type `Char` becomes a type `C` with a linear order
(the order `std::char_traits` comparison uses) plus a `CharType C` record
giving the terminator value `Char{}` and whether the width is one of the
supported widths of `empty_string` (`char`, `wchar_t`, `char8_t`, `char16_t`,
`char32_t`).  Operations that in C++ read memory through the wrapped pointer
are `Option`-valued: `none` models undefined behaviour — dereferencing a
null pointer, or scanning past the end of a buffer with no terminator.
-/

namespace Cinter

/-- Embedding of `cinter::sentinel_result<T, sentinel, SuccessComp>`: the
class holds the single data member `value_`.  The two template configuration
arguments (the sentinel constant and the comparison predicate) are passed
explicitly to the member functions that use them. -/
structure sentinel_result (T : Type) where
  value_ : T
deriving DecidableEq

/-- `sentinel_result::value()` — returns the held value verbatim. -/
def sentinel_result.value {T : Type} (r : sentinel_result T) : T :=
  r.value_

/-- `sentinel_result::is_ok()` — `SuccessComp{}(value_, sentinel)`. -/
def sentinel_result.is_ok {T : Type} (sentinel : T) (comp : T → T → Bool)
    (r : sentinel_result T) : Bool :=
  comp r.value_ sentinel

/-- `sentinel_result::has_error()` — `!is_ok()`. -/
def sentinel_result.has_error {T : Type} (sentinel : T) (comp : T → T → Bool)
    (r : sentinel_result T) : Bool :=
  !(r.is_ok sentinel comp)

/-- `std::equal_to<T>` as a boolean binary predicate. -/
def equal_to {T : Type} [DecidableEq T] : T → T → Bool :=
  fun a b => decide (a = b)

/-- `std::not_equal_to<T>` as a boolean binary predicate. -/
def not_equal_to {T : Type} [DecidableEq T] : T → T → Bool :=
  fun a b => decide (a ≠ b)

/-- The default sentinel template argument, `static_cast<T>(0)`. -/
def default_sentinel (T : Type) [Zero T] : T :=
  (0 : T)

/-- Per-instantiation data of the template parameter `Char`: the value of the
terminator `Char{}`, and whether `Char` is one of the five character widths
for which `empty_string()` has a static empty string (otherwise
`empty_string()` returns the null pointer). -/
structure CharType (C : Type) where
  nullc : C
  supported : Bool
deriving DecidableEq

/-- A caller-owned character buffer: the address a pointer to it has, and the
cells of memory the pointer gives access to.  Operations never consult
`addr`; it exists so that two buffers with equal content at different
addresses are distinguishable values. -/
structure CBuffer (C : Type) where
  addr : Nat
  data : List C
deriving DecidableEq

/-- Embedding of `cinter::basic_safe_string<Char>`: the single data member
`const Char* ptr`, a possibly-null pointer. -/
structure basic_safe_string (C : Type) where
  ptr : Option (CBuffer C)
deriving DecidableEq

/-- `basic_safe_string::empty_string()` — for supported character widths, the
process-wide static empty string of that width (modelled as the canonical
buffer at address `0` holding exactly one terminator cell); for any other
character type, the null pointer. -/
def empty_string {C : Type} (ct : CharType C) : Option (CBuffer C) :=
  if ct.supported then some ⟨0, [ct.nullc]⟩ else none

/-- `basic_safe_string::c_str()` — `ptr ? ptr : empty_string()`. -/
def basic_safe_string.c_str {C : Type} (ct : CharType C)
    (s : basic_safe_string C) : Option (CBuffer C) :=
  match s.ptr with
  | some b => some b
  | none => empty_string ct

/-- `basic_safe_string::is_null()` — `!ptr`. -/
def basic_safe_string.is_null {C : Type} (s : basic_safe_string C) : Bool :=
  s.ptr.isNone

/-- `basic_safe_string::operator bool()` — `ptr != nullptr`. -/
def basic_safe_string.toBool {C : Type} (s : basic_safe_string C) : Bool :=
  s.ptr.isSome

/-- Index of the first terminator cell in a buffer: the loop
`while (s[len] != Char{}) ++len;` of `basic_safe_string::length()`.
`none` models the out-of-bounds reads the loop performs when the buffer
holds no terminator. -/
def findTerm {C : Type} [DecidableEq C] (z : C) : List C → Option Nat
  | [] => none
  | c :: rest => if c = z then some 0 else (findTerm z rest).map (· + 1)

/-- Copying a null-terminated sequence out of a buffer, cell by cell up to
the first terminator (what constructing a `std::basic_string<Char>` from a
`const Char*` does).  `none` models reading past the buffer end when no
terminator is present. -/
def copyUntil {C : Type} [DecidableEq C] (z : C) : List C → Option (List C)
  | [] => none
  | c :: rest => if c = z then some [] else (copyUntil z rest).map (c :: ·)

/-- The terminator scan denoted by the body of the private member
`length()` (safe_string.hpp:80-89): scan `c_str()` cell by cell for the
first terminator.  As written the program cannot invoke this scan: its only
call site is `end() const` (line 155), and `length()` lacks the `const`
qualifier, so instantiating `end()` passes a const `this` to a non-const
member and is ill-formed in every compilation mode.  This definition
supplies the evidently intended missing qualifier and models the scan the
source text denotes; `none` models dereferencing a null `c_str()` or
scanning an unterminated buffer. -/
def basic_safe_string.intendedLength {C : Type} [DecidableEq C]
    (ct : CharType C) (s : basic_safe_string C) : Option Nat :=
  (s.c_str ct).bind fun b => findTerm ct.nullc b.data

/-- `basic_safe_string::string()` — `std::basic_string<Char>(c_str())`, the
owned copy of the characters up to the first terminator.  `none` models the
undefined behaviour of constructing a `basic_string` from a null pointer or
an unterminated buffer. -/
def basic_safe_string.string {C : Type} [DecidableEq C] (ct : CharType C)
    (s : basic_safe_string C) : Option (List C) :=
  (s.c_str ct).bind fun b => copyUntil ct.nullc b.data

/-- `basic_safe_string::view()` — `std::basic_string_view<Char>(c_str())`,
which scans `c_str()` for its length and then references exactly the cells
before the terminator.  We record the referenced character range; `none`
models constructing a `string_view` from a null pointer or an unterminated
buffer. -/
def basic_safe_string.view {C : Type} [DecidableEq C] (ct : CharType C)
    (s : basic_safe_string C) : Option (List C) :=
  (s.c_str ct).bind fun b => (findTerm ct.nullc b.data).map fun n => b.data.take n

/-- The characters that iterating from `begin()` (= `c_str()`) to `end()`
(= `c_str() + length()`) would yield — the first `length()` cells of the
`c_str()` buffer — under the same missing-`const` correction as
`intendedLength`.  In the source as written no iteration compiles at all,
because instantiating `end()` (or `cend()`) is ill-formed.  `none` models an
iteration whose `end()` computation dereferenced a null pointer or overran
the buffer. -/
def basic_safe_string.intendedIterChars {C : Type} [DecidableEq C]
    (ct : CharType C) (s : basic_safe_string C) : Option (List C) :=
  (s.c_str ct).bind fun b => (s.intendedLength ct).map fun n => b.data.take n

/-- Three-way lexicographic comparison of two character sequences, as
`std::basic_string_view::operator<=>` performs it via `char_traits`
comparison: compare cell by cell with the character order, the shorter
sequence ranking first on a tie. -/
def lexCompare {C : Type} [LinearOrder C] : List C → List C → Ordering
  | [], [] => Ordering.eq
  | [], _ :: _ => Ordering.lt
  | _ :: _, [] => Ordering.gt
  | a :: as, b :: bs =>
    if a < b then Ordering.lt
    else if b < a then Ordering.gt
    else lexCompare as bs

/-- `basic_safe_string::operator<=>` — `view() <=> other.view()`.  `none`
models a comparison whose `view()` materialization had undefined
behaviour. -/
def basic_safe_string.compare {C : Type} [LinearOrder C] (ct : CharType C)
    (a b : basic_safe_string C) : Option Ordering :=
  (a.view ct).bind fun va => (b.view ct).map fun vb => lexCompare va vb

/-- `a == b`, rewritten from `(a <=> b) == 0`. -/
def basic_safe_string.eqB {C : Type} [LinearOrder C] (ct : CharType C)
    (a b : basic_safe_string C) : Option Bool :=
  (basic_safe_string.compare ct a b).map fun o => decide (o = Ordering.eq)

/-- `a != b`, rewritten from `(a <=> b) != 0`. -/
def basic_safe_string.neB {C : Type} [LinearOrder C] (ct : CharType C)
    (a b : basic_safe_string C) : Option Bool :=
  (basic_safe_string.compare ct a b).map fun o => decide (o ≠ Ordering.eq)

/-- `a < b`, rewritten from `(a <=> b) < 0`. -/
def basic_safe_string.ltB {C : Type} [LinearOrder C] (ct : CharType C)
    (a b : basic_safe_string C) : Option Bool :=
  (basic_safe_string.compare ct a b).map fun o => decide (o = Ordering.lt)

/-- `a <= b`, rewritten from `(a <=> b) <= 0`. -/
def basic_safe_string.leB {C : Type} [LinearOrder C] (ct : CharType C)
    (a b : basic_safe_string C) : Option Bool :=
  (basic_safe_string.compare ct a b).map fun o => decide (o ≠ Ordering.gt)

/-- `a > b`, rewritten from `(a <=> b) > 0`. -/
def basic_safe_string.gtB {C : Type} [LinearOrder C] (ct : CharType C)
    (a b : basic_safe_string C) : Option Bool :=
  (basic_safe_string.compare ct a b).map fun o => decide (o = Ordering.gt)

/-- `a >= b`, rewritten from `(a <=> b) >= 0`. -/
def basic_safe_string.geB {C : Type} [LinearOrder C] (ct : CharType C)
    (a b : basic_safe_string C) : Option Bool :=
  (basic_safe_string.compare ct a b).map fun o => decide (o ≠ Ordering.lt)

/-- The characters of a buffer before its first terminator: the character
sequence a null-terminated buffer denotes. -/
def charsBeforeNull {C : Type} [DecidableEq C] (z : C) (l : List C) : List C :=
  l.takeWhile fun c => decide (c ≠ z)

/-- The character sequence a view references: the denoted sequence of its
buffer, or the empty sequence when the wrapped pointer is null. -/
def basic_safe_string.refChars {C : Type} [DecidableEq C] (ct : CharType C)
    (s : basic_safe_string C) : List C :=
  match s.ptr with
  | some b => charsBeforeNull ct.nullc b.data
  | none => []

/-- A view on which the C++ operations have defined behaviour: either the
wrapped pointer references a buffer that really is null-terminated, or the
pointer is null and the character width is supported (so that `c_str()` has
a static empty string to fall back to). -/
def basic_safe_string.Valid {C : Type} (ct : CharType C)
    (s : basic_safe_string C) : Prop :=
  match s.ptr with
  | some b => ct.nullc ∈ b.data
  | none => ct.supported = true

instance {C : Type} [DecidableEq C] (ct : CharType C) (s : basic_safe_string C) :
    Decidable (s.Valid ct) :=
  match s with
  | ⟨some b⟩ => inferInstanceAs (Decidable (ct.nullc ∈ b.data))
  | ⟨none⟩ => inferInstanceAs (Decidable (ct.supported = true))

/-- A concrete supported character width for instantiations: characters are
naturals, the terminator is `0`. -/
def natChar : CharType Nat :=
  ⟨0, true⟩

/-- A concrete unsupported character width (a custom character type outside
the five widths `empty_string()` knows): characters are naturals, the
terminator is `0`, and `empty_string()` returns the null pointer. -/
def rawChar : CharType Nat :=
  ⟨0, false⟩

/-! Helper lemmas relating the scanning operations to the denoted character
sequence of a valid buffer. -/

theorem charsBeforeNull_nil {C : Type} [DecidableEq C] (z : C) :
    charsBeforeNull z ([] : List C) = [] :=
  rfl

theorem charsBeforeNull_cons {C : Type} [DecidableEq C] (z c : C) (rest : List C) :
    charsBeforeNull z (c :: rest)
      = if c = z then [] else c :: charsBeforeNull z rest := by
  by_cases hc : c = z <;> simp [charsBeforeNull, List.takeWhile, hc]

theorem findTerm_of_mem {C : Type} [DecidableEq C] (z : C) (l : List C)
    (h : z ∈ l) : findTerm z l = some (charsBeforeNull z l).length := by
  induction l with
  | nil => cases h
  | cons c rest ih =>
    by_cases hc : c = z
    · simp [findTerm, hc, charsBeforeNull_cons]
    · have hz : z ∈ rest := by
        rcases List.mem_cons.mp h with h1 | h1
        · exact absurd h1.symm hc
        · exact h1
      simp [findTerm, hc, charsBeforeNull_cons, ih hz]

theorem copyUntil_of_mem {C : Type} [DecidableEq C] (z : C) (l : List C)
    (h : z ∈ l) : copyUntil z l = some (charsBeforeNull z l) := by
  induction l with
  | nil => cases h
  | cons c rest ih =>
    by_cases hc : c = z
    · simp [copyUntil, hc, charsBeforeNull_cons]
    · have hz : z ∈ rest := by
        rcases List.mem_cons.mp h with h1 | h1
        · exact absurd h1.symm hc
        · exact h1
      simp [copyUntil, hc, charsBeforeNull_cons, ih hz]

theorem take_charsBeforeNull {C : Type} [DecidableEq C] (z : C) (l : List C) :
    l.take (charsBeforeNull z l).length = charsBeforeNull z l := by
  induction l with
  | nil => rfl
  | cons c rest ih =>
    by_cases hc : c = z
    · simp [charsBeforeNull_cons, hc]
    · simp [charsBeforeNull_cons, hc, List.take_succ_cons, ih]

theorem c_str_of_valid {C : Type} [DecidableEq C] (ct : CharType C)
    (s : basic_safe_string C) (h : s.Valid ct) :
    ∃ b, s.c_str ct = some b ∧ ct.nullc ∈ b.data
      ∧ charsBeforeNull ct.nullc b.data = s.refChars ct := by
  match s with
  | ⟨some b⟩ => exact ⟨b, rfl, h, rfl⟩
  | ⟨none⟩ =>
    refine ⟨⟨0, [ct.nullc]⟩, ?_, ?_, ?_⟩
    · have hs : ct.supported = true := h
      simp [basic_safe_string.c_str, empty_string, hs]
    · simp
    · simp [basic_safe_string.refChars, charsBeforeNull_cons]

theorem intendedLength_of_valid {C : Type} [DecidableEq C] (ct : CharType C)
    (s : basic_safe_string C) (h : s.Valid ct) :
    basic_safe_string.intendedLength ct s = some (s.refChars ct).length := by
  obtain ⟨b, hb, hmem, hchars⟩ := c_str_of_valid ct s h
  simp [basic_safe_string.intendedLength, hb, findTerm_of_mem _ _ hmem, hchars]

theorem string_of_valid {C : Type} [DecidableEq C] (ct : CharType C)
    (s : basic_safe_string C) (h : s.Valid ct) :
    basic_safe_string.string ct s = some (s.refChars ct) := by
  obtain ⟨b, hb, hmem, hchars⟩ := c_str_of_valid ct s h
  simp [basic_safe_string.string, hb, copyUntil_of_mem _ _ hmem, hchars]

theorem view_of_valid {C : Type} [DecidableEq C] (ct : CharType C)
    (s : basic_safe_string C) (h : s.Valid ct) :
    basic_safe_string.view ct s = some (s.refChars ct) := by
  obtain ⟨b, hb, hmem, hchars⟩ := c_str_of_valid ct s h
  simp [basic_safe_string.view, hb, findTerm_of_mem _ _ hmem, ← hchars,
    take_charsBeforeNull]

theorem intendedIterChars_of_valid {C : Type} [DecidableEq C]
    (ct : CharType C) (s : basic_safe_string C) (h : s.Valid ct) :
    basic_safe_string.intendedIterChars ct s = some (s.refChars ct) := by
  obtain ⟨b, hb, hmem, hchars⟩ := c_str_of_valid ct s h
  simp [basic_safe_string.intendedIterChars, hb,
    intendedLength_of_valid ct s h, basic_safe_string.intendedLength,
    findTerm_of_mem _ _ hmem, ← hchars, take_charsBeforeNull]

theorem compare_of_valid {C : Type} [LinearOrder C] (ct : CharType C)
    (a b : basic_safe_string C) (ha : a.Valid ct) (hb : b.Valid ct) :
    basic_safe_string.compare ct a b
      = some (lexCompare (a.refChars ct) (b.refChars ct)) := by
  simp [basic_safe_string.compare, view_of_valid ct a ha, view_of_valid ct b hb]

theorem lexCompare_eq_iff {C : Type} [LinearOrder C] (as bs : List C) :
    lexCompare as bs = Ordering.eq ↔ as = bs := by
  induction as generalizing bs with
  | nil => cases bs <;> simp [lexCompare]
  | cons a as ih =>
    cases bs with
    | nil => simp [lexCompare]
    | cons b bs =>
      rcases lt_trichotomy a b with h | h | h
      · have hne : a ≠ b := ne_of_lt h
        simp [lexCompare, h, hne]
      · subst h
        simp [lexCompare, lt_irrefl, ih]
      · have hne : a ≠ b := ne_of_gt h
        have h2 : ¬a < b := not_lt_of_gt h
        simp [lexCompare, h2, h, hne]

/-! Claim theorems. -/

/-- C1: `is_ok()` returns exactly the result of applying the configured
comparison predicate to the held value and the configured sentinel; in
particular, with sentinel `0` and the default equality predicate a wrapper
of `0` is ok and a wrapper of `5` is not ok with `value() = 5`, and with
sentinel `0` and the not-equal predicate a wrapper of `0` is not ok and a
wrapper of `5` is ok. -/
theorem C1_is_ok_applies_predicate :
    (∀ (T : Type) (sentinel : T) (comp : T → T → Bool) (r : sentinel_result T),
        r.is_ok sentinel comp = comp r.value sentinel)
    ∧ (sentinel_result.mk (0 : Int)).is_ok 0 equal_to = true
    ∧ ((sentinel_result.mk (5 : Int)).is_ok 0 equal_to = false
        ∧ (sentinel_result.mk (5 : Int)).value = 5)
    ∧ (sentinel_result.mk (0 : Int)).is_ok 0 not_equal_to = false
    ∧ (sentinel_result.mk (5 : Int)).is_ok 0 not_equal_to = true :=
  ⟨fun _ _ _ _ => rfl, by decide, ⟨by decide, rfl⟩, by decide, by decide⟩

/-- C7: for every configuration (element type, sentinel, predicate) and every
wrapped value, `has_error()` is the exact logical negation of `is_ok()`. -/
theorem C7_has_error_negates_is_ok :
    ∀ (T : Type) (sentinel : T) (comp : T → T → Bool) (r : sentinel_result T),
      r.has_error sentinel comp = !(r.is_ok sentinel comp) :=
  fun _ _ _ _ => rfl

/-- C8: with only the element type given, the sentinel defaults to
`static_cast<T>(0)` and the predicate to `std::equal_to`, so `is_ok()` holds
exactly when the wrapped value equals zero. -/
theorem C8_default_configuration (T : Type) [Zero T] [DecidableEq T]
    (r : sentinel_result T) :
    default_sentinel T = (0 : T)
    ∧ (r.is_ok (default_sentinel T) equal_to = true ↔ r.value = 0) := by
  constructor
  · rfl
  · simp [sentinel_result.is_ok, sentinel_result.value, equal_to,
      default_sentinel]

/-- C8 witness: at `T = Int` with the default configuration, wrapping `0`
is ok. -/
theorem C8_default_configuration_witness :
    (sentinel_result.mk (0 : Int)).is_ok (default_sentinel Int) equal_to
      = true :=
  (C8_default_configuration Int (sentinel_result.mk (0 : Int))).2.mpr rfl

/-- C2 counterexample: for an unsupported character width (`rawChar`),
`empty_string()` is the null pointer, so on a default-constructed view
`c_str()` is null and the invocable operations that read through it — the
owned copy, the non-owning view and comparison — dereference a null pointer
(modelled by `none`).  This refutes the claim that for unsupported widths
every read operation completes normally without ever dereferencing a null
pointer. -/
theorem C2_counterexample :
    basic_safe_string.c_str rawChar (⟨none⟩ : basic_safe_string Nat) = none
    ∧ basic_safe_string.string rawChar (⟨none⟩ : basic_safe_string Nat) = none
    ∧ basic_safe_string.view rawChar (⟨none⟩ : basic_safe_string Nat) = none
    ∧ basic_safe_string.compare rawChar (⟨none⟩ : basic_safe_string Nat) ⟨none⟩
        = none := by
  refine ⟨rfl, rfl, rfl, rfl⟩

/-- C2 amended: for supported character widths, on every view that is either
default-constructed (absent reference) or references a valid null-terminated
buffer, every read operation the program can invoke completes normally
without dereferencing a null pointer: `is_null` and the boolean conversion
are total and opposite, and `c_str`, the owned copy, the non-owning view and
comparison all produce a result.  Iteration is not among the invocable
operations: instantiating `end()` is ill-formed (`end() const` at
safe_string.hpp:155 calls the non-const `length()` at line 80), so no
`begin()`/`end()` iteration compiles in any mode (see C6). -/
theorem C2_amended_no_failure {C : Type} [LinearOrder C] (ct : CharType C)
    (_hsupp : ct.supported = true) (s t : basic_safe_string C)
    (hs : s.Valid ct) (ht : t.Valid ct) :
    s.is_null = !s.toBool
    ∧ (s.c_str ct).isSome = true
    ∧ (basic_safe_string.string ct s).isSome = true
    ∧ (basic_safe_string.view ct s).isSome = true
    ∧ (basic_safe_string.compare ct s t).isSome = true := by
  obtain ⟨b, hb, _, _⟩ := c_str_of_valid ct s hs
  refine ⟨?_, ?_, ?_, ?_, ?_⟩
  · cases s with
    | mk p => cases p <;> rfl
  · simp [hb]
  · simp [string_of_valid ct s hs]
  · simp [view_of_valid ct s hs]
  · simp [compare_of_valid ct s t hs ht]

/-- C2 witness: the amended theorem applied at the supported width `natChar`,
to the default-constructed view and a view over the buffer `[1, 0]`. -/
theorem C2_amended_no_failure_witness :
    (basic_safe_string.compare natChar (⟨none⟩ : basic_safe_string Nat)
        ⟨some ⟨7, [1, 0]⟩⟩).isSome = true :=
  (C2_amended_no_failure natChar rfl ⟨none⟩ ⟨some ⟨7, [1, 0]⟩⟩ (by decide)
    (by decide)).2.2.2.2

/-- C3 counterexample: for an unsupported character width (`rawChar`), the
default-constructed view's owned-copy materialization does not equal the
empty string — constructing the owned copy reads through the null `c_str()`
(modelled by `none`).  This refutes the owned-copy clause of the claim when
read over every character type. -/
theorem C3_counterexample :
    basic_safe_string.string rawChar (⟨none⟩ : basic_safe_string Nat) = none
    ∧ ¬basic_safe_string.string rawChar (⟨none⟩ : basic_safe_string Nat)
        = some [] := by
  refine ⟨rfl, fun h => Option.noConfusion h⟩

/-- C3 amended: a default-constructed view has `is_null() = true` and boolean
conversion `false` for every character type; `c_str()` is the canonical
static empty string for supported widths and the null pointer for any other
character type; and for supported widths the owned copy equals the empty
string and the non-owning view is empty (for unsupported widths those two
materializations read through a null pointer).  No clause about iteration:
instantiating `end()` is ill-formed in the source (`end() const` calls the
non-const `length()`), so a default-constructed view cannot be iterated at
all (see C6). -/
theorem C3_amended_default_view {C : Type} [DecidableEq C] (ct : CharType C) :
    basic_safe_string.is_null (⟨none⟩ : basic_safe_string C) = true
    ∧ basic_safe_string.toBool (⟨none⟩ : basic_safe_string C) = false
    ∧ (ct.supported = true →
        basic_safe_string.c_str ct (⟨none⟩ : basic_safe_string C)
          = some ⟨0, [ct.nullc]⟩
        ∧ basic_safe_string.string ct (⟨none⟩ : basic_safe_string C) = some []
        ∧ basic_safe_string.view ct (⟨none⟩ : basic_safe_string C) = some [])
    ∧ (ct.supported = false →
        basic_safe_string.c_str ct (⟨none⟩ : basic_safe_string C) = none) := by
  refine ⟨rfl, rfl, fun hsupp => ?_, fun hunsupp => ?_⟩
  · have hv : (⟨none⟩ : basic_safe_string C).Valid ct := hsupp
    have hrc : (⟨none⟩ : basic_safe_string C).refChars ct = [] := rfl
    refine ⟨?_, ?_, ?_⟩
    · simp [basic_safe_string.c_str, empty_string, hsupp]
    · simpa [hrc] using string_of_valid ct ⟨none⟩ hv
    · simpa [hrc] using view_of_valid ct ⟨none⟩ hv
  · simp [basic_safe_string.c_str, empty_string, hunsupp]

/-- C3 witness: the amended theorem applied at the supported width `natChar`
and at the unsupported width `rawChar`. -/
theorem C3_amended_default_view_witness :
    basic_safe_string.c_str natChar (⟨none⟩ : basic_safe_string Nat)
      = some ⟨0, [0]⟩
    ∧ basic_safe_string.string natChar (⟨none⟩ : basic_safe_string Nat)
      = some []
    ∧ basic_safe_string.c_str rawChar (⟨none⟩ : basic_safe_string Nat)
      = none :=
  ⟨((C3_amended_default_view natChar).2.2.1 rfl).1,
   ((C3_amended_default_view natChar).2.2.1 rfl).2.1,
   (C3_amended_default_view rawChar).2.2.2 rfl⟩

/-- C4: a view constructed from a reference to a valid null-terminated
buffer materializes an owned copy equal, character for character, to the
buffer content before its first terminator, and a non-owning view whose
characters are that same content and whose length is the scan-length of the
buffer. -/
theorem C4_materialize_from_buffer {C : Type} [DecidableEq C]
    (ct : CharType C) (a : Nat) (d : List C) (h : ct.nullc ∈ d) :
    basic_safe_string.string ct ⟨some ⟨a, d⟩⟩
      = some (charsBeforeNull ct.nullc d)
    ∧ basic_safe_string.view ct ⟨some ⟨a, d⟩⟩
      = some (charsBeforeNull ct.nullc d)
    ∧ (basic_safe_string.view ct ⟨some ⟨a, d⟩⟩).map List.length
      = some (charsBeforeNull ct.nullc d).length := by
  have hv : (⟨some ⟨a, d⟩⟩ : basic_safe_string C).Valid ct := h
  have hrc : (⟨some ⟨a, d⟩⟩ : basic_safe_string C).refChars ct
      = charsBeforeNull ct.nullc d := rfl
  refine ⟨?_, ?_, ?_⟩
  · simpa [hrc] using string_of_valid ct ⟨some ⟨a, d⟩⟩ hv
  · simpa [hrc] using view_of_valid ct ⟨some ⟨a, d⟩⟩ hv
  · simp [hrc, view_of_valid ct ⟨some ⟨a, d⟩⟩ hv]

/-- C4 witness: over the buffer `[3, 1, 0, 9]` at address `5`, the owned copy
and view are `[3, 1]`, of length `2`. -/
theorem C4_materialize_from_buffer_witness :
    basic_safe_string.string natChar
        (⟨some ⟨5, [3, 1, 0, 9]⟩⟩ : basic_safe_string Nat) = some [3, 1]
    ∧ basic_safe_string.view natChar
        (⟨some ⟨5, [3, 1, 0, 9]⟩⟩ : basic_safe_string Nat) = some [3, 1]
    ∧ (basic_safe_string.view natChar
        (⟨some ⟨5, [3, 1, 0, 9]⟩⟩ : basic_safe_string Nat)).map List.length
      = some 2 :=
  ⟨(C4_materialize_from_buffer natChar 5 [3, 1, 0, 9] (by decide)).1,
   (C4_materialize_from_buffer natChar 5 [3, 1, 0, 9] (by decide)).2.1,
   (C4_materialize_from_buffer natChar 5 [3, 1, 0, 9] (by decide)).2.2⟩

/-- C5: equality and ordering of two views are determined by the character
sequences they reference, not by pointer identity — the three-way comparison
equals the lexicographic comparison of the referenced sequences (so the
derived `<` and `==` operators agree with it), two views over buffers with
the same content at different addresses compare equal, and an absent
reference compares as if it referenced the empty string. -/
theorem C5_comparison_by_content {C : Type} [LinearOrder C] (ct : CharType C)
    (a b : basic_safe_string C) (ha : a.Valid ct) (hb : b.Valid ct) :
    basic_safe_string.compare ct a b
      = some (lexCompare (a.refChars ct) (b.refChars ct))
    ∧ basic_safe_string.ltB ct a b
      = some (decide (lexCompare (a.refChars ct) (b.refChars ct)
          = Ordering.lt))
    ∧ basic_safe_string.eqB ct a b
      = some (decide (lexCompare (a.refChars ct) (b.refChars ct)
          = Ordering.eq))
    ∧ (∀ (a1 a2 : Nat) (d : List C), ct.nullc ∈ d →
        basic_safe_string.eqB ct ⟨some ⟨a1, d⟩⟩ ⟨some ⟨a2, d⟩⟩ = some true)
    ∧ (a.ptr = none →
        basic_safe_string.compare ct a b
          = some (lexCompare [] (b.refChars ct))) := by
  have hc := compare_of_valid ct a b ha hb
  refine ⟨hc, ?_, ?_, ?_, ?_⟩
  · simp [basic_safe_string.ltB, hc]
  · simp [basic_safe_string.eqB, hc]
  · intro a1 a2 d hd
    have h1 : (⟨some ⟨a1, d⟩⟩ : basic_safe_string C).Valid ct := hd
    have h2 : (⟨some ⟨a2, d⟩⟩ : basic_safe_string C).Valid ct := hd
    have hcc := compare_of_valid ct ⟨some ⟨a1, d⟩⟩ ⟨some ⟨a2, d⟩⟩ h1 h2
    have heq : lexCompare ((⟨some ⟨a1, d⟩⟩ : basic_safe_string C).refChars ct)
        ((⟨some ⟨a2, d⟩⟩ : basic_safe_string C).refChars ct) = Ordering.eq :=
      (lexCompare_eq_iff _ _).mpr rfl
    simp [basic_safe_string.eqB, hcc, heq]
  · intro hnone
    have hrc : a.refChars ct = [] := by
      cases a with
      | mk p => cases hnone; rfl
    rw [hc, hrc]

/-- C5 witness: over buffers for "abc" (`[1, 2, 3, 0]`) and "abd"
(`[1, 2, 4, 0]`) at distinct addresses, the comparison is `lt`; over two
buffers with identical content `[1, 2, 3, 0]` at distinct addresses, the
views compare equal. -/
theorem C5_comparison_by_content_witness :
    basic_safe_string.compare natChar
        (⟨some ⟨5, [1, 2, 3, 0]⟩⟩ : basic_safe_string Nat)
        ⟨some ⟨9, [1, 2, 4, 0]⟩⟩ = some Ordering.lt
    ∧ basic_safe_string.eqB natChar
        (⟨some ⟨5, [1, 2, 3, 0]⟩⟩ : basic_safe_string Nat)
        ⟨some ⟨9, [1, 2, 3, 0]⟩⟩ = some true :=
  ⟨(C5_comparison_by_content natChar ⟨some ⟨5, [1, 2, 3, 0]⟩⟩
      ⟨some ⟨9, [1, 2, 4, 0]⟩⟩ (by decide) (by decide)).1,
   (C5_comparison_by_content natChar ⟨some ⟨5, [1, 2, 3, 0]⟩⟩
      ⟨some ⟨9, [1, 2, 3, 0]⟩⟩ (by decide) (by decide)).2.2.2.1 5 9
      [1, 2, 3, 0] (by decide)⟩

/-- C6: the claimed iteration is what the source evidently intends, but the
code cannot deliver it — `end() const` (safe_string.hpp:155) calls the
non-const private `length()` (line 80), so instantiating `end()` or
`cend()` passes a const `this` to a non-const member and is ill-formed in
every compilation mode: the program has no iteration.  This theorem
evaluates the const-corrected scan the source text denotes at concrete
inputs: over the buffer `[4, 7, 0, 8]` the intended iteration yields
`[4, 7]` with scan length `2`, and over an absent reference (supported
width) it yields zero characters. -/
theorem C6_iteration_code_bug :
    basic_safe_string.intendedIterChars natChar
        (⟨some ⟨2, [4, 7, 0, 8]⟩⟩ : basic_safe_string Nat) = some [4, 7]
    ∧ basic_safe_string.intendedLength natChar
        (⟨some ⟨2, [4, 7, 0, 8]⟩⟩ : basic_safe_string Nat) = some 2
    ∧ basic_safe_string.intendedIterChars natChar
        (⟨none⟩ : basic_safe_string Nat) = some [] := by
  refine ⟨rfl, rfl, rfl⟩

/-- C9: the claim lists iteration among the operations under which a
default-constructed view and a view over an immediately-terminated buffer
are indistinguishable, but the code has no iteration — instantiating
`end()` is ill-formed (`end() const` at safe_string.hpp:155 calls the
non-const `length()` at line 80) — so that conjunct cannot be exhibited by
the program.  This theorem evaluates the rest of the claim, and the
iteration conjunct against the const-corrected scan the source denotes, at
a concrete supported-width input: the two views agree under comparison,
owned-copy materialization and the intended iteration, yet differ on
`is_null()` and the boolean conversion. -/
theorem C9_absent_vs_empty_code_bug :
    basic_safe_string.compare natChar (⟨none⟩ : basic_safe_string Nat)
        ⟨some ⟨3, [0]⟩⟩ = some Ordering.eq
    ∧ basic_safe_string.eqB natChar (⟨none⟩ : basic_safe_string Nat)
        ⟨some ⟨3, [0]⟩⟩ = some true
    ∧ basic_safe_string.string natChar (⟨none⟩ : basic_safe_string Nat)
      = basic_safe_string.string natChar ⟨some ⟨3, [0]⟩⟩
    ∧ basic_safe_string.intendedIterChars natChar
        (⟨none⟩ : basic_safe_string Nat)
      = basic_safe_string.intendedIterChars natChar ⟨some ⟨3, [0]⟩⟩
    ∧ basic_safe_string.is_null (⟨none⟩ : basic_safe_string Nat) = true
    ∧ basic_safe_string.is_null (⟨some ⟨3, [0]⟩⟩ : basic_safe_string Nat)
      = false
    ∧ basic_safe_string.toBool (⟨none⟩ : basic_safe_string Nat) = false
    ∧ basic_safe_string.toBool (⟨some ⟨3, [0]⟩⟩ : basic_safe_string Nat)
      = true := by
  refine ⟨rfl, rfl, rfl, rfl, rfl, rfl, rfl, rfl⟩

/-- C10: over valid (or absent, supported-width) views the comparison
operators form a consistent total order: exactly one of `<`, `==`, `>`
holds, `<=` is the negation of `>`, `>=` the negation of `<`, `!=` the
negation of `==`, and equality is reflexive, symmetric and transitive. -/
theorem C10_total_order {C : Type} [LinearOrder C] (ct : CharType C)
    (a b c : basic_safe_string C)
    (ha : a.Valid ct) (hb : b.Valid ct) (hc : c.Valid ct) :
    ((basic_safe_string.ltB ct a b = some true
        ∧ basic_safe_string.eqB ct a b = some false
        ∧ basic_safe_string.gtB ct a b = some false)
      ∨ (basic_safe_string.ltB ct a b = some false
        ∧ basic_safe_string.eqB ct a b = some true
        ∧ basic_safe_string.gtB ct a b = some false)
      ∨ (basic_safe_string.ltB ct a b = some false
        ∧ basic_safe_string.eqB ct a b = some false
        ∧ basic_safe_string.gtB ct a b = some true))
    ∧ basic_safe_string.leB ct a b = (basic_safe_string.gtB ct a b).map not
    ∧ basic_safe_string.geB ct a b = (basic_safe_string.ltB ct a b).map not
    ∧ basic_safe_string.neB ct a b = (basic_safe_string.eqB ct a b).map not
    ∧ basic_safe_string.eqB ct a a = some true
    ∧ (basic_safe_string.eqB ct a b = some true →
        basic_safe_string.eqB ct b a = some true)
    ∧ (basic_safe_string.eqB ct a b = some true →
        basic_safe_string.eqB ct b c = some true →
        basic_safe_string.eqB ct a c = some true) := by
  have cab := compare_of_valid ct a b ha hb
  have cba := compare_of_valid ct b a hb ha
  have caa := compare_of_valid ct a a ha ha
  have cbc := compare_of_valid ct b c hb hc
  have cac := compare_of_valid ct a c ha hc
  refine ⟨?_, ?_, ?_, ?_, ?_, ?_, ?_⟩
  · rcases ho : lexCompare (a.refChars ct) (b.refChars ct) with _ | _ | _
    · exact Or.inl (by
        simp [basic_safe_string.ltB, basic_safe_string.eqB,
          basic_safe_string.gtB, cab, ho])
    · exact Or.inr (Or.inl (by
        simp [basic_safe_string.ltB, basic_safe_string.eqB,
          basic_safe_string.gtB, cab, ho]))
    · exact Or.inr (Or.inr (by
        simp [basic_safe_string.ltB, basic_safe_string.eqB,
          basic_safe_string.gtB, cab, ho]))
  · rcases ho : lexCompare (a.refChars ct) (b.refChars ct) with _ | _ | _ <;>
      simp [basic_safe_string.leB, basic_safe_string.gtB, cab, ho]
  · rcases ho : lexCompare (a.refChars ct) (b.refChars ct) with _ | _ | _ <;>
      simp [basic_safe_string.geB, basic_safe_string.ltB, cab, ho]
  · rcases ho : lexCompare (a.refChars ct) (b.refChars ct) with _ | _ | _ <;>
      simp [basic_safe_string.neB, basic_safe_string.eqB, cab, ho]
  · simp [basic_safe_string.eqB, caa, (lexCompare_eq_iff _ _).mpr rfl]
  · intro h1
    have he : a.refChars ct = b.refChars ct := by
      apply (lexCompare_eq_iff _ _).mp
      by_contra hne
      simp [basic_safe_string.eqB, cab, hne] at h1
    simp [basic_safe_string.eqB, cba, (lexCompare_eq_iff _ _).mpr he.symm]
  · intro h1 h2
    have he1 : a.refChars ct = b.refChars ct := by
      apply (lexCompare_eq_iff _ _).mp
      by_contra hne
      simp [basic_safe_string.eqB, cab, hne] at h1
    have he2 : b.refChars ct = c.refChars ct := by
      apply (lexCompare_eq_iff _ _).mp
      by_contra hne
      simp [basic_safe_string.eqB, cbc, hne] at h2
    simp [basic_safe_string.eqB, cac,
      (lexCompare_eq_iff _ _).mpr (he1.trans he2)]

/-- C10 witness: the total-order laws applied at `natChar` to the views over
`[1, 0]`, `[2, 0]` and `[2, 0]` at distinct addresses. -/
theorem C10_total_order_witness :
    basic_safe_string.leB natChar
        (⟨some ⟨1, [1, 0]⟩⟩ : basic_safe_string Nat) ⟨some ⟨2, [2, 0]⟩⟩
      = (basic_safe_string.gtB natChar
          (⟨some ⟨1, [1, 0]⟩⟩ : basic_safe_string Nat)
          ⟨some ⟨2, [2, 0]⟩⟩).map not
    ∧ basic_safe_string.eqB natChar
        (⟨some ⟨1, [1, 0]⟩⟩ : basic_safe_string Nat) ⟨some ⟨1, [1, 0]⟩⟩
      = some true :=
  ⟨(C10_total_order natChar ⟨some ⟨1, [1, 0]⟩⟩ ⟨some ⟨2, [2, 0]⟩⟩
      ⟨some ⟨3, [2, 0]⟩⟩ (by decide) (by decide) (by decide)).2.1,
   (C10_total_order natChar ⟨some ⟨1, [1, 0]⟩⟩ ⟨some ⟨2, [2, 0]⟩⟩
      ⟨some ⟨3, [2, 0]⟩⟩ (by decide) (by decide) (by decide)).2.2.2.2.1⟩

end Cinter
